import Mathlib

/-
  Verification of the Call Session Orchestrator of a phone virtual assistant.

  Shallow embedding of the orchestrator core:
  - src/services/notification.ts   (transcript formatting, echo filter, dispatch)
  - src/services/callOrchestrator.ts (session lifecycle, finalize, fallback summary)
  - src/routes/voice.ts            (recording-status and call-status webhooks)

  Conventions of the embedding:
  - JS strings are modelled as Lean `String` and, inside the text algorithms,
    as `List Char` (one element per code point; the sources only manipulate
    ASCII/BMP text, where JS UTF-16 length and code-point length agree).
  - JS numbers appearing in this logic are integers or simple decimals;
    they are modelled as `Nat` / `Rat` (no float rounding is exercised).
  - Fallible external calls (database writes, provider sends, JSON.parse)
    are modelled by explicit Boolean success inputs; try/catch is modelled
    by the corresponding case split.
  - The single-threaded JS event loop delivers events in some order; a run
    of the system is a fold of handler functions over an event list.
-/

namespace VA

/-- JS `String.prototype.trim` on character lists: drop whitespace at both ends. -/
def jsTrim (l : List Char) : List Char :=
  ((l.dropWhile Char.isWhitespace).reverse.dropWhile Char.isWhitespace).reverse

/-- JS `String.prototype.toLowerCase` (ASCII range, as exercised by the sources). -/
def jsLower (l : List Char) : List Char := l.map Char.toLower

/-- JS `hay.includes(needle)`: substring containment (empty needle always contained). -/
def listContains (hay needle : List Char) : Bool :=
  match hay with
  | [] => needle.isEmpty
  | c :: t => needle.isPrefixOf (c :: t) || listContains t needle

/-- One conversation turn: `role` is "caller" or "assistant" (callOrchestrator.ts). -/
structure Turn where
  role : String
  content : String
  deriving DecidableEq

/-- The drop test of `filterEchoFromTranscript` (notification.ts lines 30-51) for one
caller turn `p`, given the immediately preceding original turn `prev` (parts[i-1])
and the nearest agent turn `lastAgent` found in the already-emitted output. -/
def shouldDrop (prev lastAgent : Option Turn) (p : Turn) : Bool :=
  match prev with
  | none => false
  | some pv =>
    let text := jsTrim p.content.toList
    if p.role = "caller" ∧ text ≠ [] then
      let callerLower := jsLower text
      let echoPrev : Bool :=
        if pv.role = "assistant" then
          let prevText := jsLower (jsTrim pv.content.toList)
          prevText == callerLower || listContains prevText callerLower ||
            listContains callerLower prevText ||
            (decide (5 ≤ callerLower.length) &&
              listContains prevText (callerLower.take (min 15 callerLower.length)))
        else false
      if echoPrev then true
      else
        match lastAgent with
        | some la =>
          let lastLower := jsLower (jsTrim la.content.toList)
          !lastLower.isEmpty &&
            (lastLower == callerLower || listContains lastLower callerLower ||
              listContains callerLower lastLower)
        | none => false
    else false

/-- `out.slice().reverse().find((x) => x.role === "assistant")` (notification.ts line 45). -/
def lastAgentOf (out : List Turn) : Option Turn :=
  out.reverse.find? (fun x => x.role == "assistant")

/-- The loop of `filterEchoFromTranscript`: walks `parts` carrying the original
previous turn and the emitted output `out`. -/
def filterEchoAux (parts : List Turn) (prev : Option Turn) (out : List Turn) : List Turn :=
  match parts with
  | [] => out
  | p :: tl =>
    if shouldDrop prev (lastAgentOf out) p then
      filterEchoAux tl (some p) out
    else
      filterEchoAux tl (some p) (out ++ [p])

/-- `filterEchoFromTranscript` (notification.ts lines 28-55). -/
def filterEchoFromTranscript (parts : List Turn) : List Turn :=
  filterEchoAux parts none []

/-- `formatTranscriptLines` (notification.ts lines 58-69): echo-filter, render each
turn as "Caller: ..." / "Agent: ...", newlines collapsed to spaces, empty turns
skipped, joined with newlines. -/
def formatTranscriptLines (parts : List Turn) : String :=
  if parts.isEmpty then ""
  else
    let filtered := filterEchoFromTranscript parts
    String.intercalate "\n"
      ((filtered.map (fun p =>
        let label := if p.role = "caller" then "Caller" else "Agent"
        let text := (jsTrim p.content.toList).map (fun c => if c = '\n' then ' ' else c)
        if text = [] then "" else label ++ ": " ++ String.mk text)).filter (· != ""))

/-- The echo-drop condition as the SPEC words it (claim C5 / spec 4.1), over the
original previous turn and the nearest prior agent turn. `strict = false` is the
claim exactly as written: the nearest prior agent turn L drops the caller turn
whenever L equals, contains, or is contained by T — even when L trims to empty
(the empty text is contained in every T). `strict = true` adds the guard the
code has: L must additionally have nonempty trimmed text. -/
def echoDropSpec (strict : Bool) (prev lastAgent : Option Turn) (p : Turn) : Bool :=
  match prev with
  | none => false
  | some pv =>
    let text := jsTrim p.content.toList
    if p.role = "caller" ∧ text ≠ [] then
      let callerLower := jsLower text
      let echoPrev : Bool :=
        if pv.role = "assistant" then
          let prevText := jsLower (jsTrim pv.content.toList)
          prevText == callerLower || listContains prevText callerLower ||
            listContains callerLower prevText ||
            (decide (5 ≤ callerLower.length) &&
              listContains prevText (callerLower.take (min 15 callerLower.length)))
        else false
      if echoPrev then true
      else
        match lastAgent with
        | some la =>
          let lastLower := jsLower (jsTrim la.content.toList)
          (!strict || !lastLower.isEmpty) &&
            (lastLower == callerLower || listContains lastLower callerLower ||
              listContains callerLower lastLower)
        | none => false
    else false

/-- Spec-side echo filter: walks the turn list tracking the original previous
turn and the nearest prior agent turn directly (instead of re-scanning the
emitted output as the code does). -/
def filterEchoSpecAux (strict : Bool) (prev lastAgent : Option Turn) :
    List Turn → List Turn
  | [] => []
  | p :: tl =>
    let dropped := echoDropSpec strict prev lastAgent p
    let la' := if p.role == "assistant" then some p else lastAgent
    (if dropped then [] else [p]) ++ filterEchoSpecAux strict (some p) la' tl

/-- Spec-side echo filter on a whole transcript. -/
def filterEchoSpec (strict : Bool) (parts : List Turn) : List Turn :=
  filterEchoSpecAux strict none none parts

theorem shouldDrop_eq_echoDropSpec (prev lastAgent : Option Turn) (p : Turn) :
    shouldDrop prev lastAgent p = echoDropSpec true prev lastAgent p := by
  cases prev <;> rfl

theorem shouldDrop_role (prev lastAgent : Option Turn) (p : Turn)
    (h : shouldDrop prev lastAgent p = true) : p.role = "caller" := by
  cases prev with
  | none => simp [shouldDrop] at h
  | some pv =>
    simp only [shouldDrop] at h
    by_cases hc : p.role = "caller" ∧ jsTrim p.content.toList ≠ []
    · exact hc.1
    · rw [if_neg hc] at h
      exact absurd h (by decide)

theorem lastAgentOf_append_one (out : List Turn) (p : Turn) :
    lastAgentOf (out ++ [p]) =
      if p.role == "assistant" then some p else lastAgentOf out := by
  simp only [lastAgentOf, List.reverse_append, List.reverse_cons, List.reverse_nil,
    List.nil_append, List.cons_append, List.find?]
  cases h : p.role == "assistant" <;> simp [h]

theorem filterEchoAux_eq_spec (parts : List Turn) :
    ∀ (prev : Option Turn) (out : List Turn),
      filterEchoAux parts prev out =
        out ++ filterEchoSpecAux true prev (lastAgentOf out) parts := by
  induction parts with
  | nil => intro prev out; simp [filterEchoAux, filterEchoSpecAux]
  | cons p tl ih =>
    intro prev out
    simp only [filterEchoAux, filterEchoSpecAux,
      shouldDrop_eq_echoDropSpec prev (lastAgentOf out) p]
    by_cases hd : echoDropSpec true prev (lastAgentOf out) p = true
    · have hrole : p.role = "caller" := by
        apply shouldDrop_role prev (lastAgentOf out)
        rw [shouldDrop_eq_echoDropSpec]; exact hd
      have hra : (p.role == "assistant") = false := by
        rw [hrole]; decide
      simp [hd, hra, ih]
    · rw [Bool.not_eq_true] at hd
      simp [hd, ih (some p) (out ++ [p]), lastAgentOf_append_one, List.append_assoc]

/-- C5 counterexample: the claim as stated drops a caller turn whenever the
nearest prior agent turn L equals, contains, or is contained by its text T;
an agent turn that trims to empty text is contained in every T, so the claim
predicts that "John" (whose nearest prior agent turn is " ") is dropped. The
code keeps it: its backward-scan guard additionally requires the agent text to
be nonempty. `filterEchoSpec false` is the claim as written; the code differs
from it on this input. -/
theorem C5_counterexample :
    filterEchoFromTranscript
        [⟨"assistant", " "⟩, ⟨"caller", "hello"⟩, ⟨"caller", "John"⟩] ≠
      filterEchoSpec false
        [⟨"assistant", " "⟩, ⟨"caller", "hello"⟩, ⟨"caller", "John"⟩] := by
  decide

/-- C5 (amended): a caller-labeled turn with non-empty trimmed text T is dropped
exactly when (a) the immediately preceding turn is agent-labeled with trimmed
text P and, case-insensitively, P == T, P contains T, T contains P, or T has
length >= 5 and P contains the first min(15, len T) characters of T; or (b) the
nearest prior agent turn L has NONEMPTY trimmed text and, case-insensitively,
equals, contains, or is contained by T (amendment: the claim omitted the
nonemptiness guard). In particular the formatter emits only
"Agent: May I have your name?" and "Caller: John Smith" on the claimed example. -/
theorem C5_echo_suppression :
    (∀ parts : List Turn, filterEchoFromTranscript parts = filterEchoSpec true parts) ∧
    formatTranscriptLines
        [⟨"assistant", "May I have your name?"⟩, ⟨"caller", "May I have your name?"⟩,
         ⟨"caller", "John Smith"⟩] =
      "Agent: May I have your name?\nCaller: John Smith" := by
  constructor
  · intro parts
    have h := filterEchoAux_eq_spec parts none []
    simpa [filterEchoFromTranscript, filterEchoSpec, lastAgentOf] using h
  · decide

/-- JS falsy test for `x?.trim()`: null/undefined, or trims to the empty string. -/
def trimFalsy : Option String → Bool
  | none => true
  | some s => jsTrim s.toList == []

/-- `dedupeReasonAndSummary` (notification.ts lines 72-85). The conditional
branches of the both-nonempty path are kept as in the source; note that each
of them returns the trimmed summary. -/
def dedupeReasonAndSummary (reason summary : Option String) : String :=
  if trimFalsy summary then
    match reason with
    | none => ""
    | some r => String.mk (jsTrim r.toList)
  else if trimFalsy reason then String.mk (jsTrim (summary.getD "").toList)
  else
    let r := jsTrim (reason.getD "").toList
    let s := jsTrim (summary.getD "").toList
    if r = s ∨ r.isPrefixOf s ∨
        (0 < r.length ∧ listContains (jsLower s) ((jsLower r).take 40)) then
      String.mk s
    else if r.length < 80 ∧ r.length + 30 < s.length then String.mk s
    else String.mk s

theorem trimFalsy_getD {o : Option String} (h : trimFalsy o = true) :
    jsTrim (o.getD "").toList = [] := by
  cases o with
  | none => rfl
  | some s => simpa [trimFalsy] using h

/-- C8 (confirmed): the formatted message block shows only the narrative when
the reason is empty; only the reason when the narrative is empty; and only the
narrative when they are equal, or the narrative starts with the reason, or the
narrative case-insensitively contains the first 40 characters of the reason, or
the reason is shorter than 80 characters while the narrative is at least 30
characters longer. The cited example outputs only the narrative. -/
theorem C8_dedupe_reason_summary :
    (∀ reason summary : Option String, trimFalsy reason = true →
        dedupeReasonAndSummary reason summary =
          String.mk (jsTrim (summary.getD "").toList)) ∧
    (∀ reason summary : Option String, trimFalsy summary = true →
        dedupeReasonAndSummary reason summary =
          String.mk (jsTrim (reason.getD "").toList)) ∧
    (∀ reason summary : Option String, trimFalsy reason = false →
        trimFalsy summary = false →
        (jsTrim (reason.getD "").toList = jsTrim (summary.getD "").toList ∨
          (jsTrim (reason.getD "").toList).isPrefixOf (jsTrim (summary.getD "").toList) ∨
          listContains (jsLower (jsTrim (summary.getD "").toList))
            ((jsLower (jsTrim (reason.getD "").toList)).take 40) ∨
          ((jsTrim (reason.getD "").toList).length < 80 ∧
            (jsTrim (reason.getD "").toList).length + 30 ≤
              (jsTrim (summary.getD "").toList).length)) →
        dedupeReasonAndSummary reason summary =
          String.mk (jsTrim (summary.getD "").toList)) ∧
    dedupeReasonAndSummary (some "Return call about invoice")
        (some "John called about the Q3 invoice discrepancy and wants a callback today.") =
      "John called about the Q3 invoice discrepancy and wants a callback today." := by
  refine ⟨?_, ?_, ?_, by decide⟩
  · intro reason summary hr
    by_cases hs : trimFalsy summary = true
    · rw [dedupeReasonAndSummary.eq_def, if_pos hs, trimFalsy_getD hs]
      cases reason with
      | none => rfl
      | some r =>
        have h0 : jsTrim r.toList = [] := by simpa [trimFalsy] using hr
        show String.mk (jsTrim r.toList) = _
        rw [h0]
    · rw [dedupeReasonAndSummary.eq_def, if_neg hs, if_pos hr]
  · intro reason summary hs
    rw [dedupeReasonAndSummary.eq_def, if_pos hs]
    cases reason with
    | none => rfl
    | some r => rfl
  · intro reason summary hr hs _
    rw [dedupeReasonAndSummary.eq_def, if_neg (by simp [hs]), if_neg (by simp [hr])]
    dsimp only
    split_ifs <;> rfl

/-- C8 witness: the theorem applied at concrete inputs. -/
theorem C8_witness :
    dedupeReasonAndSummary (some " ") (some "Narrative text") = "Narrative text" ∧
    dedupeReasonAndSummary (some "Call me back") (some " ") = "Call me back" ∧
    dedupeReasonAndSummary (some "Invoice")
        (some "Invoice for Q3 needs a review before Friday close of business this week.") =
      "Invoice for Q3 needs a review before Friday close of business this week." := by
  refine ⟨?_, ?_, ?_⟩
  · have h := C8_dedupe_reason_summary.1 (some " ") (some "Narrative text") (by decide)
    rw [h]; decide
  · have h := C8_dedupe_reason_summary.2.1 (some "Call me back") (some " ") (by decide)
    rw [h]; decide
  · have h := C8_dedupe_reason_summary.2.2.1 (some "Invoice")
      (some "Invoice for Q3 needs a review before Friday close of business this week.")
      (by decide) (by decide) (by decide)
    rw [h]; decide

/-- `CallSummary` (claude.ts). `urgency` and `sentiment` are kept as plain strings:
at runtime the values flow from untyped agent input (TypeScript annotations are
erased and nothing validates them). `confidence_score` is a rational. -/
structure CallSummary where
  caller_name : Option String
  company : Option String
  reason_for_call : String
  urgency : String
  callback_window : Option String
  promised_actions : List String
  sentiment : Option String
  confidence_score : Rat
  summary : String
  deriving DecidableEq

/-- Collapse every maximal whitespace run to one space: JS `replace(/\s+/g, " ")`.
`prevSpace` records whether the current position continues a whitespace run. -/
def collapseWsAux (prevSpace : Bool) : List Char → List Char
  | [] => []
  | c :: rest =>
    if c.isWhitespace then
      (if prevSpace then [] else [' ']) ++ collapseWsAux true rest
    else c :: collapseWsAux false rest

def collapseWs (l : List Char) : List Char := collapseWsAux false l

/-- `callerParts.join(" ").replace(/\s+/g, " ").trim()` over the caller-labeled
turns (callOrchestrator.ts lines 450-454). -/
def fallbackTranscript (parts : List Turn) : List Char :=
  jsTrim (collapseWs (List.intercalate [' ']
    ((parts.filter (fun t => t.role == "caller")).map (fun t => t.content.toList))))

/-- `fullTranscript.split(/[.!?]+/)[0]?.trim() || ""`: the text before the first
sentence-ending punctuation character, trimmed. -/
def firstSentenceOf (l : List Char) : List Char :=
  jsTrim (l.takeWhile (fun c => !(c == '.' || c == '!' || c == '?')))

/-- `buildFallbackSummary` (callOrchestrator.ts lines 449-472). -/
def buildFallbackSummary (parts : List Turn) : CallSummary :=
  let fullTranscript := fallbackTranscript parts
  let firstSentence := firstSentenceOf fullTranscript
  let shortReason :=
    if 0 < firstSentence.length ∧ firstSentence.length ≤ 120 then firstSentence
    else jsTrim (fullTranscript.take 80) ++
      (if 80 < fullTranscript.length then ['…'] else [])
  { caller_name := none
    company := none
    reason_for_call :=
      if shortReason = [] then "Caller did not state reason — review transcript"
      else String.mk shortReason
    urgency := "medium"
    callback_window := none
    promised_actions := ["Review transcript and return call"]
    sentiment := none
    confidence_score := 1/5
    summary :=
      if fullTranscript = [] then
        "Call ended with no caller speech detected. Possible hang-up or wrong number."
      else String.mk (fullTranscript.take 400 ++
        (if 400 < fullTranscript.length then ['…'] else [])) }

/-- C6 counterexample: for the single caller turn "!!! Help" the first sentence
(the split on .!? of the collapsed caller text) is empty, hence at most 120
characters long, so the claim says the fallback reason equals it; the code
instead requires the first sentence to be NONEMPTY and falls through to the
80-character branch, producing "!!! Help". -/
theorem C6_counterexample :
    (firstSentenceOf (fallbackTranscript [⟨"caller", "!!! Help"⟩])).length ≤ 120 ∧
    (buildFallbackSummary [⟨"caller", "!!! Help"⟩]).reason_for_call ≠
      String.mk (firstSentenceOf (fallbackTranscript [⟨"caller", "!!! Help"⟩])) := by
  decide

/-- C6 (amended): the fallback reason equals the first sentence (split on .!?)
of the whitespace-collapsed concatenation of caller turn texts when that
sentence is NONEMPTY and at most 120 characters (amendment: the claim omitted
nonemptiness); otherwise it is the first 80 characters, trimmed, with an
ellipsis iff the text exceeds 80 characters — or the fixed no-reason message
when even that is empty. Urgency is "medium", confidence 0.2, promised actions
["Review transcript and return call"]; the narrative is the caller text cut to
400 characters (ellipsis iff truncated) or the no-caller-speech message. -/
theorem C6_fallback_summary (parts : List Turn) :
    (buildFallbackSummary parts).urgency = "medium" ∧
    (buildFallbackSummary parts).confidence_score = 1/5 ∧
    (buildFallbackSummary parts).promised_actions =
      ["Review transcript and return call"] ∧
    (0 < (firstSentenceOf (fallbackTranscript parts)).length →
      (firstSentenceOf (fallbackTranscript parts)).length ≤ 120 →
      (buildFallbackSummary parts).reason_for_call =
        String.mk (firstSentenceOf (fallbackTranscript parts))) ∧
    (¬(0 < (firstSentenceOf (fallbackTranscript parts)).length ∧
        (firstSentenceOf (fallbackTranscript parts)).length ≤ 120) →
      (buildFallbackSummary parts).reason_for_call =
        (if jsTrim ((fallbackTranscript parts).take 80) ++
            (if 80 < (fallbackTranscript parts).length then ['…'] else []) = [] then
          "Caller did not state reason — review transcript"
        else String.mk (jsTrim ((fallbackTranscript parts).take 80) ++
          (if 80 < (fallbackTranscript parts).length then ['…'] else [])))) ∧
    (fallbackTranscript parts = [] →
      (buildFallbackSummary parts).summary =
        "Call ended with no caller speech detected. Possible hang-up or wrong number.") ∧
    (fallbackTranscript parts ≠ [] →
      (buildFallbackSummary parts).summary =
        String.mk ((fallbackTranscript parts).take 400 ++
          (if 400 < (fallbackTranscript parts).length then ['…'] else []))) := by
  refine ⟨rfl, rfl, rfl, ?_, ?_, ?_, ?_⟩
  · intro h1 h2
    have hne : firstSentenceOf (fallbackTranscript parts) ≠ [] :=
      List.ne_nil_of_length_pos h1
    have hcond : 0 < (firstSentenceOf (fallbackTranscript parts)).length ∧
        (firstSentenceOf (fallbackTranscript parts)).length ≤ 120 := ⟨h1, h2⟩
    simp only [buildFallbackSummary]
    rw [if_pos hcond, if_neg hne]
  · intro h
    simp only [buildFallbackSummary]
    rw [if_neg h]
  · intro h
    simp only [buildFallbackSummary]
    rw [if_pos h]
  · intro h
    simp only [buildFallbackSummary]
    rw [if_neg h]

/-- C6 witness: the amended theorem applied at concrete transcripts. -/
theorem C6_witness :
    (buildFallbackSummary [⟨"caller", "Hi this is Sarah"⟩]).reason_for_call =
      "Hi this is Sarah" ∧
    (buildFallbackSummary [⟨"caller", "Hi this is Sarah"⟩]).confidence_score = 1/5 ∧
    (buildFallbackSummary []).summary =
      "Call ended with no caller speech detected. Possible hang-up or wrong number." := by
  refine ⟨?_, (C6_fallback_summary [⟨"caller", "Hi this is Sarah"⟩]).2.1, ?_⟩
  · have h := (C6_fallback_summary [⟨"caller", "Hi this is Sarah"⟩]).2.2.2.1
      (by decide) (by decide)
    rw [h]; decide
  · exact (C6_fallback_summary []).2.2.2.2.2.1 (by decide)

/-- The untyped `input` object of the agent function call `end_call_summary`
(callOrchestrator.ts lines 303-320): absent or null fields are `none`. -/
structure EndCallInput where
  caller_name : Option String := none
  company : Option String := none
  reason_for_call : Option String := none
  urgency : Option String := none
  callback_window : Option String := none
  promised_actions : Option (List String) := none
  sentiment : Option String := none
  confidence_score : Option Rat := none
  full_summary : Option String := none

/-- JS `x || d` for a string-valued x: null/undefined and "" are falsy. -/
def jsOrString (o : Option String) (d : String) : String :=
  match o with
  | none => d
  | some s => if s = "" then d else s

/-- JS `x || null` (and `x || undefined`) for a string-valued x. -/
def jsOrNull (o : Option String) : Option String :=
  match o with
  | none => none
  | some s => if s = "" then none else some s

/-- The summary stored on the session by `handleEndCallSummary`
(callOrchestrator.ts lines 310-320): defaults are applied via `||` / `??`, but
nothing clamps `confidence_score` to [0,1] and nothing restricts `urgency` to
the enumerated values. -/
def handleEndCallSummary (input : EndCallInput) : CallSummary :=
  { caller_name := jsOrNull input.caller_name
    company := jsOrNull input.company
    reason_for_call := jsOrString input.reason_for_call "Unknown"
    urgency := jsOrString input.urgency "medium"
    callback_window := jsOrNull input.callback_window
    promised_actions := input.promised_actions.getD []
    sentiment := jsOrNull input.sentiment
    confidence_score := input.confidence_score.getD (1/2)
    summary := jsOrString input.full_summary "No summary available." }

/-- The summary-carrying fields written by `updateCallLog` at finalize
(callOrchestrator.ts lines 406-419). database.ts `updateCallLog` passes the
values to the store unchanged (urgency TEXT, confidenceScore REAL), so the
persisted record IS this structure and re-reading returns it. -/
structure FinalRecordFields where
  status : String
  durationSeconds : Nat
  callerName : Option String
  company : Option String
  reasonForCall : String
  urgency : String
  callbackWindow : Option String
  promisedActions : List String
  sentiment : Option String
  confidenceScore : Rat
  summary : String
  deriving DecidableEq

/-- The `updateCallLog` payload built inside `endCall` (callOrchestrator.ts 406-419). -/
def finalizeRecordFields (s : CallSummary) (status : String)
    (durationSeconds : Nat) : FinalRecordFields :=
  { status := status
    durationSeconds := durationSeconds
    callerName := s.caller_name
    company := s.company
    reasonForCall := s.reason_for_call
    urgency := s.urgency
    callbackWindow := s.callback_window
    promisedActions := s.promised_actions
    sentiment := s.sentiment
    confidenceScore := s.confidence_score
    summary := s.summary }

/-- C4 counterexample: an agent input with confidence_score 1.5 and urgency
"critical" passes through `handleEndCallSummary` unchanged — the session
summary has a confidence_score outside [0,1] (no clamping exists) and an
urgency outside the three enumerated values (no validation exists). -/
theorem C4_counterexample :
    (handleEndCallSummary
        { confidence_score := some (3/2), urgency := some "critical" }).confidence_score
      = 3/2 ∧
    ¬((3 : Rat)/2 ≤ 1) ∧
    (handleEndCallSummary
        { confidence_score := some (3/2), urgency := some "critical" }).urgency
      = "critical" ∧
    "critical" ∉ (["low", "medium", "high"] : List String) := by
  refine ⟨rfl, by norm_num, rfl, by decide⟩

/-- C4 (amended): `handleEndCallSummary` applies defaults — urgency "medium"
when the agent omits it (null or empty string), confidence 0.5 when absent —
and otherwise passes the supplied values through UNCHANGED: there is no
clamping to [0,1] and no restriction to {low, medium, high} (so in-range
values are never coerced, and out-of-range values are stored as given). The
fallback summary always satisfies both ranges (urgency "medium", confidence
0.2), and the urgency and confidence written to the call record at finalize,
when re-read, equal the summary values. -/
theorem C4_summary_fields :
    (∀ input : EndCallInput, input.urgency = none ∨ input.urgency = some "" →
      (handleEndCallSummary input).urgency = "medium") ∧
    (∀ input : EndCallInput, input.confidence_score = none →
      (handleEndCallSummary input).confidence_score = 1/2) ∧
    (∀ (input : EndCallInput) (u : String), input.urgency = some u → u ≠ "" →
      (handleEndCallSummary input).urgency = u) ∧
    (∀ (input : EndCallInput) (q : Rat), input.confidence_score = some q →
      (handleEndCallSummary input).confidence_score = q) ∧
    (∀ parts : List Turn, (buildFallbackSummary parts).urgency = "medium" ∧
      0 ≤ (buildFallbackSummary parts).confidence_score ∧
      (buildFallbackSummary parts).confidence_score ≤ 1) ∧
    (∀ (s : CallSummary) (st : String) (d : Nat),
      (finalizeRecordFields s st d).urgency = s.urgency ∧
      (finalizeRecordFields s st d).confidenceScore = s.confidence_score) := by
  refine ⟨?_, ?_, ?_, ?_, ?_, ?_⟩
  · rintro input (h | h) <;> simp [handleEndCallSummary, jsOrString, h]
  · intro input h
    simp [handleEndCallSummary, h]
  · intro input u h hne
    simp [handleEndCallSummary, jsOrString, h, hne]
  · intro input q h
    simp [handleEndCallSummary, h]
  · intro parts
    refine ⟨rfl, ?_, ?_⟩ <;> norm_num [buildFallbackSummary]
  · intro s st d
    exact ⟨rfl, rfl⟩

/-- C4 witness: the amended theorem applied at concrete inputs. -/
theorem C4_witness :
    (handleEndCallSummary { urgency := some "" }).urgency = "medium" ∧
    (handleEndCallSummary { confidence_score := some (9/10) }).confidence_score = 9/10 ∧
    (handleEndCallSummary { urgency := some "high" }).urgency = "high" ∧
    (handleEndCallSummary ({} : EndCallInput)).confidence_score = 1/2 := by
  refine ⟨?_, ?_, ?_, ?_⟩
  · exact C4_summary_fields.1 _ (Or.inr rfl)
  · exact C4_summary_fields.2.2.2.1 _ (9/10) rfl
  · exact C4_summary_fields.2.2.1 _ "high" rfl (by decide)
  · exact C4_summary_fields.2.1 _ rfl

/-- The call-record bookkeeping fields touched by finalize. A fresh record has
status "in-progress" (store default), no end time, no duration, no fallback flag. -/
structure OrchRecord where
  status : String
  endedAtSet : Bool
  duration : Option Nat
  usedFallback : Bool
  deriving DecidableEq

/-- One session plus side-effect counters for the finalize path
(callOrchestrator.ts). `finalizeRuns` counts entries into the finalize body
(past the `ended` guard), `updateWrites` counts successful call-record writes,
`summarySends` counts successful summary-notification dispatches. -/
structure SessionState where
  ended : Bool
  inRegistry : Bool
  finalizeRuns : Nat
  updateWrites : Nat
  summarySends : Nat
  record : OrchRecord
  deriving DecidableEq

def initialSession : SessionState :=
  { ended := false, inRegistry := true, finalizeRuns := 0, updateWrites := 0,
    summarySends := 0,
    record := { status := "in-progress", endedAtSet := false, duration := none,
                usedFallback := false } }

/-- The catch handler of `endCall` (callOrchestrator.ts lines 433-441): attempt
to mark the record failed/usedFallback with end time and duration; a failure of
this recovery write is swallowed by `.catch(() => \x7b\x7d)`. -/
def endCallCatch (s : SessionState) (durationSeconds : Nat) (recoveryOk : Bool) :
    SessionState :=
  if recoveryOk then
    { s with
      updateWrites := s.updateWrites + 1
      record := { status := "failed", endedAtSet := true,
                  duration := some durationSeconds, usedFallback := true } }
  else s

/-- `endCall` (callOrchestrator.ts lines 383-443). `updateOk` models whether the
main `updateCallLog` write succeeds, `notifyOk` whether
`sendPostCallNotifications` succeeds, `recoveryOk` whether the catch-handler
write succeeds. Returns the new state and whether an exception escapes the
call (structurally never: every fallible step is inside try/catch). -/
def endCallRun (s : SessionState) (status : String) (durationSeconds : Nat)
    (updateOk notifyOk recoveryOk : Bool) : SessionState × Bool :=
  if s.ended then (s, false)
  else
    let s1 := { s with
                ended := true
                inRegistry := false
                finalizeRuns := s.finalizeRuns + 1 }
    if updateOk then
      let s2 := { s1 with
        updateWrites := s1.updateWrites + 1
        record := { status := status, endedAtSet := true,
                    duration := some durationSeconds,
                    usedFallback := s1.record.usedFallback } }
      if notifyOk then ({ s2 with summarySends := s2.summarySends + 1 }, false)
      else (endCallCatch s2 durationSeconds recoveryOk, false)
    else (endCallCatch s1 durationSeconds recoveryOk, false)

/-- The six termination triggers of spec 4.8. -/
inductive TerminationTrigger where
  | stopFrame
  | twilioClose
  | twilioError
  | agentClose
  | agentError
  | timerFire
  deriving DecidableEq

/-- Fault-free delivery of one termination trigger paired with the duration the
clock would report at that moment. Handlers are from the source: the stop frame
and the telephony close/error handlers call `endCall` directly (lines 67-88);
the agent close/error handlers first check `!session.ended` (lines 189-201);
the max-duration timer checks registry membership and `!session.ended`
(lines 204-209). The success Booleans are all true: C1 is about the fault-free
finalize (C7 covers the failure paths). -/
def applyTrigger (s : SessionState) (ev : TerminationTrigger × Nat) : SessionState :=
  match ev.1 with
  | .stopFrame => (endCallRun s "completed" ev.2 true true true).1
  | .twilioClose => (endCallRun s "completed" ev.2 true true true).1
  | .twilioError => (endCallRun s "failed" ev.2 true true true).1
  | .agentClose => if s.ended then s else (endCallRun s "completed" ev.2 true true true).1
  | .agentError => if s.ended then s else (endCallRun s "failed" ev.2 true true true).1
  | .timerFire =>
    if s.inRegistry ∧ ¬s.ended then (endCallRun s "completed" ev.2 true true true).1
    else s

theorem endCallRun_of_ended (s : SessionState) (st : String) (d : Nat)
    (u n r : Bool) (h : s.ended = true) : endCallRun s st d u n r = (s, false) := by
  simp [endCallRun, h]

theorem applyTrigger_of_ended (s : SessionState) (ev : TerminationTrigger × Nat)
    (h : s.ended = true) : applyTrigger s ev = s := by
  cases ev with
  | mk t d => cases t <;> simp [applyTrigger, endCallRun_of_ended, h]

theorem foldl_applyTrigger_of_ended (evs : List (TerminationTrigger × Nat))
    (s : SessionState) (h : s.ended = true) : evs.foldl applyTrigger s = s := by
  induction evs with
  | nil => rfl
  | cons e tl ih => rw [List.foldl_cons, applyTrigger_of_ended s e h]; exact ih

theorem applyTrigger_initial (ev : TerminationTrigger × Nat) :
    (applyTrigger initialSession ev).ended = true ∧
    (applyTrigger initialSession ev).inRegistry = false ∧
    (applyTrigger initialSession ev).finalizeRuns = 1 ∧
    (applyTrigger initialSession ev).updateWrites = 1 ∧
    (applyTrigger initialSession ev).summarySends = 1 := by
  cases ev with
  | mk t d => cases t <;> simp [applyTrigger, endCallRun, initialSession]

/-- C1 (confirmed): for every nonempty sequence of termination triggers — any
interleaving of stop frame, telephony close/error, agent close/error, timer
fire, each with whatever duration the clock reports — delivered to one session
in the fault-free run, the ended flag ends true having been set exactly once,
the finalize body runs exactly once, the call record is written exactly once,
exactly one summary dispatch happens, the session is removed from the
registry, and any later endCall invocation returns the state unchanged with no
exception (no side effects). -/
theorem C1_finalize_idempotent (evs : List (TerminationTrigger × Nat))
    (h : evs ≠ []) :
    (evs.foldl applyTrigger initialSession).ended = true ∧
    (evs.foldl applyTrigger initialSession).finalizeRuns = 1 ∧
    (evs.foldl applyTrigger initialSession).updateWrites = 1 ∧
    (evs.foldl applyTrigger initialSession).summarySends = 1 ∧
    (evs.foldl applyTrigger initialSession).inRegistry = false ∧
    ∀ (st : String) (d : Nat) (u n r : Bool),
      endCallRun (evs.foldl applyTrigger initialSession) st d u n r =
        (evs.foldl applyTrigger initialSession, false) := by
  cases evs with
  | nil => exact absurd rfl h
  | cons e tl =>
    obtain ⟨h1, h2, h3, h4, h5⟩ := applyTrigger_initial e
    have hf : (e :: tl).foldl applyTrigger initialSession =
        applyTrigger initialSession e := by
      rw [List.foldl_cons]
      exact foldl_applyTrigger_of_ended tl _ h1
    rw [hf]
    exact ⟨h1, h3, h4, h5, h2, fun st d u n r => endCallRun_of_ended _ st d u n r h1⟩

/-- C1 witness: a concrete interleaving of all trigger kinds. -/
theorem C1_witness :
    ([(TerminationTrigger.stopFrame, 30), (TerminationTrigger.twilioClose, 30),
      (TerminationTrigger.agentClose, 31), (TerminationTrigger.agentError, 31),
      (TerminationTrigger.timerFire, 600)].foldl applyTrigger initialSession).updateWrites
      = 1 ∧
    ([(TerminationTrigger.stopFrame, 30), (TerminationTrigger.twilioClose, 30),
      (TerminationTrigger.agentClose, 31), (TerminationTrigger.agentError, 31),
      (TerminationTrigger.timerFire, 600)].foldl applyTrigger initialSession).summarySends
      = 1 := by
  have h := C1_finalize_idempotent
    [(TerminationTrigger.stopFrame, 30), (TerminationTrigger.twilioClose, 30),
     (TerminationTrigger.agentClose, 31), (TerminationTrigger.agentError, 31),
     (TerminationTrigger.timerFire, 600)] (by decide)
  exact ⟨h.2.2.1, h.2.2.2.1⟩

/-- C7 counterexample: when the main record write fails and the recovery write
in the catch handler also fails (for instance, the database is down for the
whole finalize), the call record keeps status "in-progress" with usedFallback
unset — it is NOT updated to "failed" as the claim requires. (No exception
escapes, which is the part of the claim that does hold.) -/
theorem C7_counterexample :
    ((endCallRun initialSession "completed" 10 false true false).1).record.status
      = "in-progress" ∧
    ((endCallRun initialSession "completed" 10 false true false).1).record.usedFallback
      = false := by
  decide

/-- C7 (amended): no exception ever escapes endCall, for every combination of
step failures; and whenever the main persistence write or the notification
dispatch fails, PROVIDED the recovery write itself succeeds (amendment: the
claim assumed it always does), the call record is updated to status "failed"
with usedFallback set, end time set and the duration recorded. -/
theorem C7_finalize_error_path (s : SessionState) (st : String) (d : Nat)
    (updateOk notifyOk recoveryOk : Bool) :
    (endCallRun s st d updateOk notifyOk recoveryOk).2 = false ∧
    (s.ended = false → recoveryOk = true →
      updateOk = false ∨ notifyOk = false →
      ((endCallRun s st d updateOk notifyOk recoveryOk).1).record =
        { status := "failed", endedAtSet := true, duration := some d,
          usedFallback := true }) := by
  constructor
  · rw [endCallRun]
    split_ifs <;> rfl
  · rintro hne hrec (h | h)
    · simp [endCallRun, endCallCatch, hne, hrec, h]
    · cases updateOk <;> simp [endCallRun, endCallCatch, hne, hrec, h]

/-- C7 witness: the amended theorem at a concrete failing dispatch. -/
theorem C7_witness :
    ((endCallRun initialSession "completed" 30 true false true).1).record =
      { status := "failed", endedAtSet := true, duration := some 30,
        usedFallback := true } ∧
    (endCallRun initialSession "completed" 30 true false true).2 = false := by
  have h := C7_finalize_error_path initialSession "completed" 30 true false true
  exact ⟨h.2 rfl rfl (Or.inr rfl), h.1⟩

/-- The call-log fields touched by the voice webhooks (routes/voice.ts). -/
structure VoiceRecord where
  status : String
  recordingUrl : Option String
  recordingSid : Option String
  endedAtSet : Bool
  duration : Option Nat
  deriving DecidableEq

/-- Webhook-side state: the persisted record (`none` when no call log exists
for the CallSid), the number of scheduled-but-unfired 90-second fallback
timers, and counters of dispatched recording-only and summary-only
notifications. -/
structure VoiceState where
  callRec : Option VoiceRecord
  pendingTimers : Nat
  recordingNotifs : Nat
  summaryOnlyNotifs : Nat
  deriving DecidableEq

/-- POST /voice/recording-status (voice.ts lines 183-212): when a call log
exists, persist RecordingSid and RecordingUrl — unconditionally, with no check
for an existing recording reference — and dispatch a recording-only
notification; without a call log, log a warning and drop. -/
def onRecordingStatus (s : VoiceState) (url sid : String) : VoiceState :=
  match s.callRec with
  | some r =>
    { s with
      callRec := some { r with recordingUrl := some url, recordingSid := some sid }
      recordingNotifs := s.recordingNotifs + 1 }
  | none => s

/-- POST /voice/status (voice.ts lines 218-264): update status, duration (only
when reported) and end time (only on "completed"); on "completed" also schedule
the 90-second recording-fallback timer. -/
def onStatusUpdate (s : VoiceState) (st : String) (dur : Option Nat) : VoiceState :=
  match s.callRec with
  | some r =>
    { s with
      callRec := some { r with
        status := st
        duration := match dur with | some d => some d | none => r.duration
        endedAtSet := if st = "completed" then true else r.endedAtSet }
      pendingTimers :=
        if st = "completed" then s.pendingTimers + 1 else s.pendingTimers }
  | none => s

/-- The 90-second timer body (voice.ts lines 237-256): re-read the record; if
it exists and still has no recording reference, dispatch a summary-only
notification. A timer only fires if one is pending. -/
def onTimerFire (s : VoiceState) : VoiceState :=
  match s.pendingTimers with
  | 0 => s
  | n + 1 =>
    let s1 : VoiceState := { s with pendingTimers := n }
    match s1.callRec with
    | some r =>
      if r.recordingUrl = none then
        { s1 with summaryOnlyNotifs := s1.summaryOnlyNotifs + 1 }
      else s1
    | none => s1

/-- The asynchronous events reaching the voice webhooks after a call. -/
inductive VoiceEvent where
  | recordingStatus (url sid : String)
  | statusUpdate (st : String) (dur : Option Nat)
  | timerFire
  deriving DecidableEq

def applyVoiceEvent (s : VoiceState) (e : VoiceEvent) : VoiceState :=
  match e with
  | .recordingStatus url sid => onRecordingStatus s url sid
  | .statusUpdate st dur => onStatusUpdate s st dur
  | .timerFire => onTimerFire s

def isRecordingStatus : VoiceEvent → Bool
  | .recordingStatus _ _ => true
  | _ => false

/-- State right after finalize: record exists, no recording reference yet. -/
def initialVoiceState : VoiceState :=
  { callRec := some { status := "in-progress", recordingUrl := none,
                      recordingSid := none, endedAtSet := false, duration := none }
    pendingTimers := 0
    recordingNotifs := 0
    summaryOnlyNotifs := 0 }

theorem recordingNotifs_onStatusUpdate (s : VoiceState) (st : String)
    (dur : Option Nat) : (onStatusUpdate s st dur).recordingNotifs = s.recordingNotifs := by
  cases h : s.callRec <;> simp [onStatusUpdate, h]

theorem recordingNotifs_onTimerFire (s : VoiceState) :
    (onTimerFire s).recordingNotifs = s.recordingNotifs := by
  unfold onTimerFire
  cases s.pendingTimers with
  | zero => rfl
  | succ n =>
    cases h : s.callRec with
    | none => simp [h]
    | some r => simp only [h]; split_ifs <;> rfl

/-- C2 counterexample: run [status "completed"; 90-second timer fires with no
recording; recording-ready arrives]. No recording-ready arrived within the
90-second window, and exactly one summary-only notification went out; yet the
late recording-ready is still persisted and still dispatches a recording-only
notification — the claim states that none ever follows. The final conjunct
shows the second half of the race: a recording-ready arriving when the record
ALREADY has a recording reference ("A") overwrites it ("B") and notifies
again, though the claim says it is persisted only if no reference exists. -/
theorem C2_counterexample :
    (([VoiceEvent.statusUpdate "completed" (some 42), VoiceEvent.timerFire,
        VoiceEvent.recordingStatus "https://api.twilio.example/rec/RE1" "RE1"].foldl
        applyVoiceEvent initialVoiceState).summaryOnlyNotifs = 1 ∧
      ([VoiceEvent.statusUpdate "completed" (some 42), VoiceEvent.timerFire,
        VoiceEvent.recordingStatus "https://api.twilio.example/rec/RE1" "RE1"].foldl
        applyVoiceEvent initialVoiceState).recordingNotifs ≠ 0) ∧
    (onRecordingStatus
        { callRec := some { status := "completed", recordingUrl := some "A",
                            recordingSid := some "RA", endedAtSet := true,
                            duration := none }
          pendingTimers := 0
          recordingNotifs := 1
          summaryOnlyNotifs := 0 } "B" "RB").callRec =
      some { status := "completed", recordingUrl := some "B",
             recordingSid := some "RB", endedAtSet := true, duration := none } := by
  decide

/-- C2 (amended): on a recording-ready callback with an existing call record,
the recording reference is persisted UNCONDITIONALLY (overwriting any earlier
reference) and exactly one recording-only notification is dispatched per
callback, with no summary dispatch from that handler; if no recording-ready
callback EVER arrives, no recording notification is ever sent, and the
completed-status plus 90-second-timer run sends exactly one summary-only
notification. (Amendments: the claim had the persist guarded on the absence of
a reference, and forbade recording notifications arriving after the 90-second
fallback.) -/
theorem C2_recording_race :
    (∀ (s : VoiceState) (r : VoiceRecord) (url sid : String), s.callRec = some r →
      (onRecordingStatus s url sid).callRec =
          some { r with recordingUrl := some url, recordingSid := some sid } ∧
      (onRecordingStatus s url sid).recordingNotifs = s.recordingNotifs + 1 ∧
      (onRecordingStatus s url sid).summaryOnlyNotifs = s.summaryOnlyNotifs) ∧
    (∀ (evs : List VoiceEvent) (s : VoiceState),
      (∀ e ∈ evs, isRecordingStatus e = false) →
      (evs.foldl applyVoiceEvent s).recordingNotifs = s.recordingNotifs) ∧
    ([VoiceEvent.statusUpdate "completed" (some 42), VoiceEvent.timerFire].foldl
        applyVoiceEvent initialVoiceState).summaryOnlyNotifs = 1 ∧
    ([VoiceEvent.statusUpdate "completed" (some 42), VoiceEvent.timerFire].foldl
        applyVoiceEvent initialVoiceState).recordingNotifs = 0 := by
  refine ⟨?_, ?_, by decide, by decide⟩
  · intro s r url sid h
    refine ⟨?_, ?_, ?_⟩ <;> simp [onRecordingStatus, h]
  · intro evs
    induction evs with
    | nil => intro s _; rfl
    | cons e tl ih =>
      intro s h
      rw [List.foldl_cons]
      have htl : ∀ x ∈ tl, isRecordingStatus x = false :=
        fun x hx => h x (List.mem_cons_of_mem e hx)
      rw [ih (applyVoiceEvent s e) htl]
      cases e with
      | recordingStatus url sid =>
        have hh := h _ (List.mem_cons_self _ tl)
        simp [isRecordingStatus] at hh
      | statusUpdate st dur => exact recordingNotifs_onStatusUpdate s st dur
      | timerFire => exact recordingNotifs_onTimerFire s

/-- C2 witness: the amended theorem at concrete inputs. -/
theorem C2_witness :
    (onRecordingStatus initialVoiceState "https://api.twilio.example/rec/RE1"
        "RE1").recordingNotifs = 1 ∧
    ([VoiceEvent.statusUpdate "completed" none, VoiceEvent.timerFire].foldl
        applyVoiceEvent initialVoiceState).recordingNotifs = 0 := by
  constructor
  · exact (C2_recording_race.1 initialVoiceState _
      "https://api.twilio.example/rec/RE1" "RE1" rfl).2.1
  · exact C2_recording_race.2.1
      [VoiceEvent.statusUpdate "completed" none, VoiceEvent.timerFire]
      initialVoiceState (by decide)

/-- One persisted NotificationRecord (database.ts `createNotification`):
channel, status, whether a provider message id was stored, whether error text
was stored. -/
structure NotifRecord where
  channel : String
  status : String
  hasMessageId : Bool
  hasError : Bool
  deriving DecidableEq

/-- `sendSMS` (notification.ts lines 283-325): on success persist one record
with status "sent" and the provider message id; on failure persist one record
with status "failed" and the error text. Both paths return normally. -/
def sendSMSRun (ok : Bool) : List NotifRecord :=
  if ok then
    [{ channel := "sms", status := "sent", hasMessageId := true, hasError := false }]
  else
    [{ channel := "sms", status := "failed", hasMessageId := false, hasError := true }]

/-- `sendWhatsApp` (notification.ts lines 327-374): persists one record either
way; rethrows the provider error unless its code is 63007. The second
component tells whether the call throws. -/
def sendWhatsAppRun (ok code63007 : Bool) : List NotifRecord × Bool :=
  if ok then
    ([{ channel := "whatsapp", status := "sent", hasMessageId := true,
        hasError := false }], false)
  else
    ([{ channel := "whatsapp", status := "failed", hasMessageId := false,
        hasError := true }], !code63007)

/-- `sendPostCallNotifications` (notification.ts lines 159-180): SMS always;
WhatsApp only when an owner WhatsApp number is configured, with its failure
caught and logged. -/
def sendPostCallRun (smsOk waConfigured waOk wa63007 : Bool) : List NotifRecord :=
  sendSMSRun smsOk ++ (if waConfigured then (sendWhatsAppRun waOk wa63007).1 else [])

/-- `sendSummaryOnlyFromCallLog` (notification.ts lines 270-281): same dispatch
shape as the post-call summary. -/
def sendSummaryOnlyRun (smsOk waConfigured waOk wa63007 : Bool) : List NotifRecord :=
  sendSMSRun smsOk ++ (if waConfigured then (sendWhatsAppRun waOk wa63007).1 else [])

/-- `sendRecordingOnlyNotification` (notification.ts lines 186-222): the SMS is
sent directly against the provider client; on success one sent-record is
persisted, but on failure the error is only logged — no record is written.
WhatsApp, when configured, goes through `sendWhatsApp` (records both ways,
throw caught). -/
def sendRecordingOnlyRun (smsOk waConfigured waOk wa63007 : Bool) : List NotifRecord :=
  (if smsOk then
    [{ channel := "sms", status := "sent", hasMessageId := true, hasError := false }]
  else []) ++
  (if waConfigured then (sendWhatsAppRun waOk wa63007).1 else [])

/-- `sendCombinedCallNotification` (notification.ts lines 229-265): identical
dispatch structure to the recording-only path, including the absent failure
record for the direct SMS send. -/
def sendCombinedRun (smsOk waConfigured waOk wa63007 : Bool) : List NotifRecord :=
  (if smsOk then
    [{ channel := "sms", status := "sent", hasMessageId := true, hasError := false }]
  else []) ++
  (if waConfigured then (sendWhatsAppRun waOk wa63007).1 else [])

/-- Modelled from the spec: `sendEscalationSMS` is imported from
services/notification by callOrchestrator.ts and routes/voice.ts, but its
definition is not in the provided sources. Spec 4.3 lists `send_escalation`
among the public operations and states that every attempt, success or failure,
writes one NotificationRecord, so it is modelled as a `sendSMS` dispatch. -/
def sendEscalationRun (ok : Bool) : List NotifRecord :=
  sendSMSRun ok

/-- Provider send attempts made by an operation that always attempts SMS and
attempts WhatsApp exactly when configured. -/
def notifAttempts (waConfigured : Bool) : Nat :=
  1 + (if waConfigured then 1 else 0)

/-- C3 counterexample: a recording-only dispatch whose direct SMS send fails
(and with no WhatsApp recipient configured) makes one attempt but persists NO
NotificationRecord at all — the claim requires exactly one `failed` record.
The combined summary-plus-recording dispatch has the same gap. -/
theorem C3_counterexample :
    (sendRecordingOnlyRun false false true true).length ≠ notifAttempts false ∧
    sendRecordingOnlyRun false false true true = [] ∧
    sendCombinedRun false false true true = [] := by
  decide

/-- C3 (amended): `sendSMS` and `sendWhatsApp` — and with them the summary,
summary-only and escalation operations — persist exactly one NotificationRecord
per attempt, with status "sent" plus a provider message id on success and
status "failed" plus error text on failure; but the recording-only and combined
operations persist a record for their direct SMS attempt ONLY on success (an
SMS failure there is logged without a record), while their WhatsApp attempts
still record both ways. -/
theorem C3_notification_audit :
    (∀ ok : Bool, (sendSMSRun ok).length = 1 ∧
      ∀ r ∈ sendSMSRun ok, r.channel = "sms" ∧
        (r.status = "sent" ∨ r.status = "failed") ∧
        (r.status = "sent" → r.hasMessageId = true) ∧
        (r.status = "failed" → r.hasError = true)) ∧
    (∀ ok code63007 : Bool, ((sendWhatsAppRun ok code63007).1).length = 1 ∧
      ∀ r ∈ (sendWhatsAppRun ok code63007).1, r.channel = "whatsapp" ∧
        (r.status = "sent" ∨ r.status = "failed") ∧
        (r.status = "sent" → r.hasMessageId = true) ∧
        (r.status = "failed" → r.hasError = true)) ∧
    (∀ smsOk waConfigured waOk wa63007 : Bool,
      (sendPostCallRun smsOk waConfigured waOk wa63007).length =
        notifAttempts waConfigured) ∧
    (∀ smsOk waConfigured waOk wa63007 : Bool,
      (sendSummaryOnlyRun smsOk waConfigured waOk wa63007).length =
        notifAttempts waConfigured) ∧
    (∀ ok : Bool, (sendEscalationRun ok).length = 1) ∧
    (∀ smsOk waConfigured waOk wa63007 : Bool,
      (sendRecordingOnlyRun smsOk waConfigured waOk wa63007).length =
        (if smsOk then 1 else 0) + (if waConfigured then 1 else 0)) ∧
    (∀ smsOk waConfigured waOk wa63007 : Bool,
      (sendCombinedRun smsOk waConfigured waOk wa63007).length =
        (if smsOk then 1 else 0) + (if waConfigured then 1 else 0)) := by
  decide

/-- C3 witness: the amended theorem at concrete success flags. -/
theorem C3_witness :
    (sendSMSRun false).length = 1 ∧
    (sendRecordingOnlyRun true true true true).length = 2 := by
  constructor
  · exact (C3_notification_audit.1 false).1
  · have h := C3_notification_audit.2.2.2.2.2.1 true true true true
    simpa using h

/-- A decoded agent JSON event; only its presence matters for the relay
decision (`handleAgentEvent` consumes it afterwards). -/
structure AgentEvent where
  type : String
  deriving DecidableEq

/-- What the agent-socket message handler does with one frame. -/
inductive AgentAction where
  | forwardAudio
  | handleEvent (e : AgentEvent)
  deriving DecidableEq

/-- `msgStr.startsWith("\x7b") || msgStr.startsWith("[")`
(callOrchestrator.ts line 173), as a first-character test. -/
def looksLikeJson (s : String) : Bool :=
  s.toList.head? == some '\x7b' || s.toList.head? == some '['

/-- The agent socket message handler (callOrchestrator.ts lines 165-187): a
frame not starting with a brace or bracket is forwarded to the telephony
socket as audio; otherwise JSON.parse is attempted — `parsed` is its result,
`none` when it throws — and on failure the frame is likewise forwarded as
audio. The Boolean result is whether an exception escapes the handler
(structurally never: the parse is the only throwing step and sits in
try/catch). -/
def agentMessageRun (msg : String) (parsed : Option AgentEvent) :
    AgentAction × Bool :=
  if !looksLikeJson msg then (.forwardAudio, false)
  else
    match parsed with
    | some e => (.handleEvent e, false)
    | none => (.forwardAudio, false)

/-- C9 (confirmed): every agent frame that does not parse as a JSON event —
because it does not look like JSON, or because parsing throws — is forwarded
to the telephony socket as opaque audio rather than dropped, and no exception
ever escapes the handler, so processing continues with the next frame. -/
theorem C9_decode_failure_forwards (msg : String) (parsed : Option AgentEvent) :
    (looksLikeJson msg = false ∨ parsed = none →
      agentMessageRun msg parsed = (AgentAction.forwardAudio, false)) ∧
    (agentMessageRun msg parsed).2 = false := by
  constructor
  · rintro (h | h)
    · simp [agentMessageRun, h]
    · subst h
      unfold agentMessageRun
      split_ifs <;> rfl
  · unfold agentMessageRun
    split_ifs with h
    · rfl
    · cases parsed <;> rfl

/-- C9 witness: a binary audio frame and a malformed JSON frame are both
forwarded. -/
theorem C9_witness :
    agentMessageRun "RIFFbinaryaudio" none = (AgentAction.forwardAudio, false) ∧
    agentMessageRun "\x7b bad json" none = (AgentAction.forwardAudio, false) := by
  constructor
  · exact (C9_decode_failure_forwards "RIFFbinaryaudio" none).1 (Or.inl (by decide))
  · exact (C9_decode_failure_forwards "\x7b bad json" none).1 (Or.inr rfl)

/-- `WebSocket.readyState` of the ws library. -/
inductive ReadyState where
  | connecting
  | wsOpen
  | closing
  | wsClosed
  deriving DecidableEq

/-- The telephony "media" frame handler (callOrchestrator.ts lines 59-65):
forward the decoded payload to the agent socket only when that socket exists
(`some`) and its readyState is OPEN; otherwise the frame is discarded — the
session holds no buffer, so nothing is queued. `α` is the opaque audio payload. -/
def handleMediaFrame {α : Type} (agentWs : Option ReadyState) (payload : α) :
    Option α :=
  match agentWs with
  | some .wsOpen => some payload
  | _ => none

/-- `forwardAudioToTwilio` (callOrchestrator.ts lines 287-299): return without
sending unless the telephony socket is OPEN. -/
def forwardAudioToTwilio {α : Type} (twilioWs : ReadyState) (audio : α) :
    Option α :=
  if twilioWs = ReadyState.wsOpen then some audio else none

/-- C10 (confirmed): an inbound telephony media frame is sent to the agent
socket iff that socket exists and is OPEN, an agent audio frame is sent to the
telephony socket iff that socket is OPEN, and in every other state the frame
yields no send at all — there is no queueing for later delivery. -/
theorem C10_forward_only_when_open :
    (∀ (α : Type) (st : Option ReadyState) (payload : α),
      (handleMediaFrame st payload = some payload ↔ st = some ReadyState.wsOpen) ∧
      (handleMediaFrame st payload = none ↔ st ≠ some ReadyState.wsOpen)) ∧
    (∀ (α : Type) (st : ReadyState) (audio : α),
      (forwardAudioToTwilio st audio = some audio ↔ st = ReadyState.wsOpen) ∧
      (forwardAudioToTwilio st audio = none ↔ st ≠ ReadyState.wsOpen)) := by
  constructor
  · intro α st payload
    rcases st with _ | rs
    · simp [handleMediaFrame]
    · cases rs <;> simp [handleMediaFrame]
  · intro α st audio
    cases st <;> simp [forwardAudioToTwilio]

end VA
